import Mathlib

/-!
Verification development for `speech_server.py`, a real-time transcription
relay: a session file logger (`create_session_file`, `log_transcript`, the
shutdown close path) and a transcript broadcast hub
(`connected_clients`, `broadcast_transcript`, the websocket handler's
register/discard) driven by a recognition callback (`on_text`).

The embedding is shallow and sequential: wall-clock reads
(`datetime.now()`) become explicit `DateTime` parameters, the outcome of a
websocket `send` becomes a boolean oracle per client, subscribers are
opaque `Nat` handles, and the Python `set` of clients is a duplicate-free
`List Nat` (the no-duplicates invariant is proved, not assumed by the
type).
-/

/-- Wall-clock instant as Python's `datetime.now()` exposes it to the code
under study: calendar fields down to seconds, plus microseconds, which
every `strftime` format used by the program discards. -/
structure DateTime where
  year : Nat
  month : Nat
  day : Nat
  hour : Nat
  minute : Nat
  second : Nat
  micro : Nat
deriving DecidableEq, Repr

/-- Zero-padded two-digit rendering, as `strftime` `%H`, `%M`, `%S`, `%m`, `%d`. -/
def pad2 (n : Nat) : String :=
  if n < 10 then "0" ++ toString n else toString n

/-- Zero-padded four-digit rendering, as `strftime` `%Y`. -/
def pad4 (n : Nat) : String :=
  (if n < 10 then "000" else if n < 100 then "00" else if n < 1000 then "0" else "")
    ++ toString n

/-- `strftime("%H:%M:%S")`. -/
def formatHMS (t : DateTime) : String :=
  pad2 t.hour ++ ":" ++ pad2 t.minute ++ ":" ++ pad2 t.second

/-- `strftime("%Y-%m-%d %H:%M:%S")`. -/
def formatFull (t : DateTime) : String :=
  pad4 t.year ++ "-" ++ pad2 t.month ++ "-" ++ pad2 t.day ++ " " ++ formatHMS t

/-- `strftime("%Y%m%d_%H%M%S")`, the filename timestamp. -/
def formatYmdHMS (t : DateTime) : String :=
  pad4 t.year ++ pad2 t.month ++ pad2 t.day ++ "_"
    ++ pad2 t.hour ++ pad2 t.minute ++ pad2 t.second

/-- The 80-character separator line written by the header and footer. -/
def eqLine : String :=
  String.mk (List.replicate 80 '=')

/-- An open (or closed) writable text file handle: the text written so far,
the prefix of it already flushed to storage, and whether `close()` has run.
Writing to a closed handle raises in Python; the embedding returns an error. -/
structure FileState where
  content : String
  flushed : String
  closed : Bool
deriving DecidableEq, Repr

/-- The path `create_session_file` derives from the wall clock:
`transcripts/transcription_YYYYMMDD_HHMMSS.txt`. It reads only the
second-resolution calendar fields; `micro` is dropped by `strftime`. -/
def session_filename (t : DateTime) : String :=
  "transcripts/transcription_" ++ formatYmdHMS t ++ ".txt"

/-- The header the three `write` calls of `create_session_file` produce. -/
def session_header (t : DateTime) : String :=
  "Audio Transcription Log\n"
    ++ "Started: " ++ formatFull t ++ "\n"
    ++ eqLine ++ "\n\n"

/-- `create_session_file`, acting on a filesystem modelled as a partial map
from path to content. `open(filename, "w")` truncates any existing file at
the path; the header is written and flushed, so after the call the file at
`session_filename now` holds exactly the header. Returns the new
filesystem, the generated filename, and the open handle stored in the
`session_file` global. -/
def create_session_file (fs : String → Option String) (now : DateTime) :
    (String → Option String) × String × FileState :=
  let filename := session_filename now
  let header := session_header now
  (fun p => if p = filename then some header else fs p,
   filename,
   { content := header, flushed := header, closed := false })

/-- One log block as `log_transcript` writes it:
two `write` calls producing `[HH:MM:SS] [FINAL|PARTIAL]`, a line
`Text: <text>`, and a blank line. -/
def logBlock (text : String) (is_final : Bool) (now : DateTime) : String :=
  "[" ++ formatHMS now ++ "] [" ++ (if is_final then "FINAL" else "PARTIAL") ++ "]\n"
    ++ "Text: " ++ text ++ "\n\n"

/-- `log_transcript(text, is_final)` acting on the `session_file` global
(`none` models Python `None`). If the global is `None` it returns at once.
Otherwise it writes a timestamped block and flushes; if the handle has been
closed, the `write` raises (Python `ValueError: I/O operation on closed
file`), modelled as `Except.error`. -/
def log_transcript (sf : Option FileState) (text : String) (is_final : Bool)
    (now : DateTime) : Except String (Option FileState) :=
  match sf with
  | none => Except.ok none
  | some f =>
    if f.closed then
      Except.error "I/O operation on closed file"
    else
      let c := f.content ++ logBlock text is_final now
      Except.ok (some { content := c, flushed := c, closed := false })

/-- A sequence of `log_transcript` calls, threading the `session_file`
global; the first raised error aborts the rest, as in Python. -/
def run_records (sf : Option FileState) (calls : List (String × Bool × DateTime)) :
    Except String (Option FileState) :=
  match calls with
  | [] => Except.ok sf
  | c :: rest =>
    match log_transcript sf c.1 c.2.1 c.2.2 with
    | Except.error e => Except.error e
    | Except.ok sf2 => run_records sf2 rest

/-- The concatenation of the blocks for a list of calls, in call order. -/
def blocksOf (calls : List (String × Bool × DateTime)) : String :=
  match calls with
  | [] => ""
  | c :: rest => logBlock c.1 c.2.1 c.2.2 ++ blocksOf rest

/-- Seconds between two wall-clock times of the same day; stands in for the
`timedelta` the footer renders. No verified claim inspects the footer text,
only that the close path writes it and closes the handle. -/
def durationSeconds (startT endT : DateTime) : Int :=
  (((endT.hour : Int) * 60 + endT.minute) * 60 + endT.second)
    - (((startT.hour : Int) * 60 + startT.minute) * 60 + startT.second)

/-- The shutdown path of `__main__` (the final `if session_file is not
None:` block): writes the footer, then `close()` flushes and closes the
handle. Crucially the global keeps pointing at the now-closed handle —
the code never resets `session_file` to `None`. -/
def shutdown_close (sf : Option FileState) (startT endT : DateTime) :
    Option FileState :=
  match sf with
  | none => none
  | some f =>
    let c := f.content
      ++ "\n" ++ eqLine ++ "\n"
      ++ "Session ended: " ++ formatFull endT ++ "\n"
      ++ "Duration: " ++ toString (durationSeconds startT endT) ++ "\n"
    some { content := c, flushed := c, closed := true }

/-- Whether the `session_file` global points at a closed handle. -/
def fileClosed (sf : Option FileState) : Bool :=
  match sf with
  | none => false
  | some f => f.closed

/-- A JSON leaf value, enough for the wire frame the server sends
(`json.dumps` of a dict of one string, one boolean and one string). -/
inductive JsonVal where
  | str (s : String) : JsonVal
  | bool (b : Bool) : JsonVal
deriving DecidableEq, Repr

/-- The serialized frame built once per `broadcast_transcript` call:
`json.dumps` of the dict literal with keys `text`, `is_final`,
`timestamp`, the timestamp being `datetime.now().strftime("%H:%M:%S")`
taken inside the broadcast (publish time). Modelled as the ordered field
list of the JSON object. -/
def broadcastMessage (text : String) (is_final : Bool) (now : DateTime) :
    List (String × JsonVal) :=
  [("text", JsonVal.str text),
   ("is_final", JsonVal.bool is_final),
   ("timestamp", JsonVal.str (formatHMS now))]

/-- `connected_clients.add(ws)` in `websocket_handler`: Python set insert —
no effect when the handle is already a member. Sets are unordered, so the
side of insertion is immaterial; the embedding prepends. -/
def register (s : List Nat) (c : Nat) : List Nat :=
  if c ∈ s then s else c :: s

/-- `connected_clients.discard(ws)` (handler cleanup and the broadcast
failure path): removes the handle if present, no-op if absent. A Python
set never holds duplicates (proved as the hub invariant below), so
removing every occurrence from the list model coincides with removing the
single one. -/
def discard (s : List Nat) (c : Nat) : List Nat :=
  s.filter (fun x => x != c)

/-- The `for client in clients:` loop of `broadcast_transcript`: attempts
`await client.send(message)` on each snapshot member in order; `sendOk`
is the oracle for whether a given client's send succeeds. On success the
delivery `(client, message)` is recorded; on any exception the client is
discarded from the live set and the loop continues. Returns the
deliveries made and the final live set. -/
def sendLoop (connected : List Nat) (snapshot : List Nat)
    (message : List (String × JsonVal)) (sendOk : Nat → Bool) :
    List (Nat × List (String × JsonVal)) × List Nat :=
  match snapshot with
  | [] => ([], connected)
  | c :: rest =>
    if sendOk c then
      let r := sendLoop connected rest message sendOk
      ((c, message) :: r.1, r.2)
    else
      sendLoop (discard connected c) rest message sendOk

/-- `broadcast_transcript(text, is_final)` acting on the
`connected_clients` global: early return when the set is empty, otherwise
serialize the frame once, snapshot-copy the set under `clients_lock`, and
run the send loop over the copy. The wall clock read for the timestamp is
the `now` parameter; send outcomes are the `sendOk` oracle. -/
def broadcast_transcript (connected : List Nat) (text : String)
    (is_final : Bool) (now : DateTime) (sendOk : Nat → Bool) :
    List (Nat × List (String × JsonVal)) × List Nat :=
  if connected.isEmpty then
    ([], connected)
  else
    let message := broadcastMessage text is_final now
    let clients := connected
    sendLoop connected clients message sendOk

/-- One hub operation on the `connected_clients` set: registration by the
handler on connect, discard by the handler on disconnect, or a broadcast
(whose failure path also discards). -/
inductive HubOp where
  | reg (c : Nat) : HubOp
  | unreg (c : Nat) : HubOp
  | publish (text : String) (is_final : Bool) (now : DateTime)
      (sendOk : Nat → Bool) : HubOp

/-- Effect of a hub operation on the subscriber set. -/
def applyOp (s : List Nat) (op : HubOp) : List Nat :=
  match op with
  | HubOp.reg c => register s c
  | HubOp.unreg c => discard s c
  | HubOp.publish text is_final now sendOk =>
    (broadcast_transcript s text is_final now sendOk).2

/-- The two globals `on_text` touches: the `session_file` handle and the
`connected_clients` set. -/
structure SysState where
  sessionFile : Option FileState
  connected : List Nat

/-- `on_text(text, is_final)`, the recognition callback: each branch makes
one `log_transcript` call and then one `asyncio.run(broadcast_transcript(...))`
call with the branch's literal flag. `asyncio.run` creates a fresh event
loop on the callback thread and runs the coroutine to completion before
returning, so the broadcast's whole effect — deliveries and failure-path
discards — is part of `on_text`'s own evaluation; the deliveries made are
returned alongside the post-state. A `ValueError` raised by the log write
propagates (the broadcast then never runs), as `Except.error`. -/
def on_text (st : SysState) (text : String) (is_final : Bool)
    (nowLog nowBc : DateTime) (sendOk : Nat → Bool) :
    Except String (SysState × List (Nat × List (String × JsonVal))) :=
  if is_final = false then
    match log_transcript st.sessionFile text false nowLog with
    | Except.error e => Except.error e
    | Except.ok sf =>
      let r := broadcast_transcript st.connected text false nowBc sendOk
      Except.ok ({ sessionFile := sf, connected := r.2 }, r.1)
  else
    match log_transcript st.sessionFile text true nowLog with
    | Except.error e => Except.error e
    | Except.ok sf =>
      let r := broadcast_transcript st.connected text true nowBc sendOk
      Except.ok ({ sessionFile := sf, connected := r.2 }, r.1)

/-! ### Send-loop characterization lemmas -/

/-- Unfolding equation for `discard` (stated by hand because the name
overloads a core library function). -/
lemma discard_def (s : List Nat) (c : Nat) :
    discard s c = s.filter (fun x => x != c) := rfl

/-- The deliveries a send loop makes are exactly one `(client, message)`
pair per snapshot member whose send succeeds, in snapshot order. -/
lemma sendLoop_fst (connected snapshot : List Nat)
    (message : List (String × JsonVal)) (sendOk : Nat → Bool) :
    (sendLoop connected snapshot message sendOk).1
      = (snapshot.filter sendOk).map (fun c => (c, message)) := by
  induction snapshot generalizing connected with
  | nil => rfl
  | cons a rest ih =>
    cases h : sendOk a with
    | true => simp [sendLoop, h, ih]
    | false => simp [sendLoop, h, ih]

/-- After a send loop, the live set is the starting set minus exactly the
snapshot members whose send failed. -/
lemma sendLoop_snd (connected snapshot : List Nat)
    (message : List (String × JsonVal)) (sendOk : Nat → Bool) :
    (sendLoop connected snapshot message sendOk).2
      = connected.filter (fun c => sendOk c || !(snapshot.contains c)) := by
  induction snapshot generalizing connected with
  | nil => simp [sendLoop]
  | cons a rest ih =>
    cases h : sendOk a with
    | true =>
      simp only [sendLoop, h, if_true]
      rw [ih]
      apply List.filter_congr
      intro x hx
      cases hx2 : sendOk x with
      | true => simp
      | false =>
        have hxa : x ≠ a := by
          intro e
          rw [e, h] at hx2
          cases hx2
        simp [List.contains_cons, hxa]
    | false =>
      simp only [sendLoop, h, if_false, Bool.false_eq_true]
      rw [ih, discard_def, List.filter_filter]
      apply List.filter_congr
      intro x hx
      by_cases hxa : x = a
      · subst hxa
        simp [h]
      · simp [List.contains_cons, hxa]

/-! ### Claim theorems -/

/-- C1: the claim says `log_transcript` is a silent no-op both before
`create_session_file` and after the shutdown close. The first conjunct
confirms the before-open half: with `session_file = None` the call returns
at once, modifying nothing. The second conjunct shows the after-close half
fails on the code: the shutdown path closes the handle but leaves the
global pointing at it, so a later `log_transcript` reaches the `write` on
a closed file and raises instead of no-opping. -/
theorem c1_quiescent_before_open_but_raises_after_close :
    (log_transcript none "late text" true ⟨2025, 10, 12, 9, 6, 0, 0⟩
        = Except.ok none) ∧
    (log_transcript
        (shutdown_close (some { content := "H", flushed := "H", closed := false })
          ⟨2025, 10, 12, 9, 0, 0, 0⟩ ⟨2025, 10, 12, 9, 5, 0, 0⟩)
        "late text" true ⟨2025, 10, 12, 9, 6, 0, 0⟩
        = Except.error "I/O operation on closed file") := by
  exact ⟨rfl, rfl⟩

/-- C6: discarding a handle that is not a member of the subscriber set is
a no-op — the call cannot fail (it is total) and returns the set
unchanged, so every other member is untouched. -/
theorem c6_unregister_absent_noop (s : List Nat) (c : Nat) (h : c ∉ s) :
    discard s c = s := by
  rw [discard_def]
  apply List.filter_eq_self.mpr
  intro x hx
  simp only [bne_iff_ne, ne_eq, decide_eq_true_eq]
  intro e
  exact h (e ▸ hx)

/-- Witness for C6 at a concrete set and absent handle. -/
theorem c6_unregister_absent_noop_witness : discard [2, 3] 5 = [2, 3] :=
  c6_unregister_absent_noop [2, 3] 5 (by decide)

/-- C10: `create_session_file` truncates. If a file already exists at the
second-resolution session path (for instance a second call within the
same wall-clock second), after the call the file at that path holds
exactly the fresh header — the prior content `c` is erased, not appended
to, and the open is not rejected. The second conjunct records that the
path has one-second resolution: it ignores the sub-second field of the
clock. -/
theorem c10_truncating_open (fs : String → Option String) (now : DateTime)
    (c : String) (h : fs (session_filename now) = some c) :
    ((create_session_file fs now).1 (session_filename now)
        = some (session_header now)) ∧
    (∀ m : Nat, session_filename { now with micro := m } = session_filename now) := by
  constructor
  · simp [create_session_file]
  · intro m
    rfl

/-- Witness for C10: a filesystem holding prior content at the session
path for 2025-10-12 09:00:00. -/
theorem c10_truncating_open_witness :
    (((create_session_file
        (fun p => if p = session_filename ⟨2025, 10, 12, 9, 0, 0, 0⟩
                  then some "OLD CONTENT" else none)
        ⟨2025, 10, 12, 9, 0, 0, 0⟩).1 (session_filename ⟨2025, 10, 12, 9, 0, 0, 0⟩))
        = some (session_header ⟨2025, 10, 12, 9, 0, 0, 0⟩)) ∧
    (∀ m : Nat, session_filename ⟨2025, 10, 12, 9, 0, 0, m⟩
        = session_filename ⟨2025, 10, 12, 9, 0, 0, 0⟩) :=
  c10_truncating_open _ ⟨2025, 10, 12, 9, 0, 0, 0⟩ "OLD CONTENT" (by simp)

/-- Unfolding equation for `register`. -/
lemma register_def (s : List Nat) (c : Nat) :
    register s c = if c ∈ s then s else c :: s := rfl

/-- Every delivery a broadcast makes carries the one serialized frame. -/
lemma broadcast_deliveries (connected : List Nat) (text : String)
    (is_final : Bool) (now : DateTime) (sendOk : Nat → Bool) :
    (broadcast_transcript connected text is_final now sendOk).1
      = (connected.filter sendOk).map
          (fun c => (c, broadcastMessage text is_final now)) := by
  cases he : connected.isEmpty with
  | true =>
    have : connected = [] := by
      cases connected with
      | nil => rfl
      | cons a l => cases he
    subst this
    rfl
  | false =>
    simp only [broadcast_transcript, he, Bool.false_eq_true, if_false]
    exact sendLoop_fst connected connected _ sendOk

/-- After a broadcast, the live set is the starting set minus exactly the
snapshot members whose send failed. -/
lemma broadcast_survivors (connected : List Nat) (text : String)
    (is_final : Bool) (now : DateTime) (sendOk : Nat → Bool) :
    (broadcast_transcript connected text is_final now sendOk).2
      = connected.filter (fun c => sendOk c || !(connected.contains c)) := by
  cases he : connected.isEmpty with
  | true =>
    have : connected = [] := by
      cases connected with
      | nil => rfl
      | cons a l => cases he
    subst this
    rfl
  | false =>
    simp only [broadcast_transcript, he, Bool.false_eq_true, if_false]
    exact sendLoop_snd connected connected _ sendOk

/-- C2: in one `broadcast_transcript` call over a duplicate-free subscriber
set, a client in the snapshot whose send succeeds receives exactly one
copy of the frame, and a client outside the snapshot (in particular one
registered only after the snapshot copy was taken) receives none. -/
theorem c2_fanout_exactly_once (connected : List Nat) (text : String)
    (is_final : Bool) (now : DateTime) (sendOk : Nat → Bool) (c : Nat)
    (h : connected.Nodup) :
    ((broadcast_transcript connected text is_final now sendOk).1.map Prod.fst).count c
      = if c ∈ connected ∧ sendOk c = true then 1 else 0 := by
  rw [broadcast_deliveries, List.map_map]
  have : (Prod.fst ∘ fun c => (c, broadcastMessage text is_final now))
      = fun c : Nat => c := rfl
  rw [this]
  have hid : ∀ l : List Nat, l.map (fun c : Nat => c) = l := fun l => l.map_id
  rw [hid]
  by_cases hc : sendOk c = true
  · rw [List.count_filter hc]
    by_cases hm : c ∈ connected
    · rw [List.count_eq_one_of_mem h hm, if_pos ⟨hm, hc⟩]
    · rw [List.count_eq_zero_of_not_mem hm, if_neg (fun k => hm k.1)]
  · have hnm : c ∉ connected.filter sendOk := by
      intro k
      exact hc (List.mem_filter.mp k).2
    rw [List.count_eq_zero_of_not_mem hnm, if_neg (fun k => hc k.2)]

/-- Witness for C2: client 1 succeeds and is counted once; the oracle
fails client 2. -/
theorem c2_fanout_exactly_once_witness :
    ((broadcast_transcript [1, 2] "hi" false ⟨2025, 10, 12, 9, 0, 0, 0⟩
        (fun k => k != 2)).1.map Prod.fst).count 1
      = if 1 ∈ [1, 2] ∧ (fun k : Nat => k != 2) 1 = true then 1 else 0 :=
  c2_fanout_exactly_once [1, 2] "hi" false ⟨2025, 10, 12, 9, 0, 0, 0⟩
    (fun k => k != 2) 1 (by decide)

/-- C3: if subscriber `s`'s send fails during a broadcast that also
targets a subscriber `u` whose send succeeds, `u` still receives the
frame and `s` has been discarded from the subscriber set by the end of
the call. The failure is swallowed by the `except` handler: the model of
the whole call is a total function, nothing propagates to the caller. -/
theorem c3_failure_isolation (connected : List Nat) (text : String)
    (is_final : Bool) (now : DateTime) (sendOk : Nat → Bool) (s u : Nat)
    (hs : s ∈ connected) (hfail : sendOk s = false)
    (hu : u ∈ connected) (hok : sendOk u = true) :
    s ∉ (broadcast_transcript connected text is_final now sendOk).2 ∧
    (u, broadcastMessage text is_final now)
      ∈ (broadcast_transcript connected text is_final now sendOk).1 := by
  constructor
  · rw [broadcast_survivors]
    intro k
    have hp := (List.mem_filter.mp k).2
    rw [hfail] at hp
    simp [hs] at hp
  · rw [broadcast_deliveries]
    exact List.mem_map.mpr ⟨u, List.mem_filter.mpr ⟨hu, hok⟩, rfl⟩

/-- Witness for C3: subscriber 1 fails, subscriber 2 succeeds. -/
theorem c3_failure_isolation_witness :
    1 ∉ (broadcast_transcript [1, 2] "hi" true ⟨2025, 10, 12, 9, 0, 0, 0⟩
          (fun k => k != 1)).2 ∧
    (2, broadcastMessage "hi" true ⟨2025, 10, 12, 9, 0, 0, 0⟩)
      ∈ (broadcast_transcript [1, 2] "hi" true ⟨2025, 10, 12, 9, 0, 0, 0⟩
          (fun k => k != 1)).1 :=
  c3_failure_isolation [1, 2] "hi" true ⟨2025, 10, 12, 9, 0, 0, 0⟩
    (fun k => k != 1) 1 2 (by decide) (by decide) (by decide) (by decide)

/-- C4: any two deliveries of one `broadcast_transcript` call carry the
identical serialized payload, and that payload is the JSON object with
exactly the fields `text` (the callback string), `is_final` (the callback
flag) and `timestamp` (`HH:MM:SS` of the publish-time clock). -/
theorem c4_identical_payload (connected : List Nat) (text : String)
    (is_final : Bool) (now : DateTime) (sendOk : Nat → Bool)
    (p q : Nat × List (String × JsonVal))
    (hp : p ∈ (broadcast_transcript connected text is_final now sendOk).1)
    (hq : q ∈ (broadcast_transcript connected text is_final now sendOk).1) :
    p.2 = q.2 ∧
    p.2 = [("text", JsonVal.str text),
           ("is_final", JsonVal.bool is_final),
           ("timestamp", JsonVal.str (formatHMS now))] := by
  rw [broadcast_deliveries] at hp hq
  obtain ⟨a, _, rfl⟩ := List.mem_map.mp hp
  obtain ⟨b, _, rfl⟩ := List.mem_map.mp hq
  exact ⟨rfl, rfl⟩

/-- Witness for C4: both deliveries of a two-subscriber broadcast. -/
theorem c4_identical_payload_witness :
    ((1, broadcastMessage "hi" false ⟨2025, 10, 12, 9, 0, 0, 0⟩) :
        Nat × List (String × JsonVal)).2
      = ((2, broadcastMessage "hi" false ⟨2025, 10, 12, 9, 0, 0, 0⟩) :
        Nat × List (String × JsonVal)).2 ∧
    ((1, broadcastMessage "hi" false ⟨2025, 10, 12, 9, 0, 0, 0⟩) :
        Nat × List (String × JsonVal)).2
      = [("text", JsonVal.str "hi"),
         ("is_final", JsonVal.bool false),
         ("timestamp", JsonVal.str (formatHMS ⟨2025, 10, 12, 9, 0, 0, 0⟩))] :=
  c4_identical_payload [1, 2] "hi" false ⟨2025, 10, 12, 9, 0, 0, 0⟩
    (fun _ => true)
    (1, broadcastMessage "hi" false ⟨2025, 10, 12, 9, 0, 0, 0⟩)
    (2, broadcastMessage "hi" false ⟨2025, 10, 12, 9, 0, 0, 0⟩)
    (by rw [broadcast_deliveries]; exact List.mem_map.mpr ⟨1, by decide, rfl⟩)
    (by rw [broadcast_deliveries]; exact List.mem_map.mpr ⟨2, by decide, rfl⟩)

/-- C7: every hub operation — register, discard, or a broadcast (whose
failure path discards) — preserves duplicate-freeness of the subscriber
set, and registering the same handle twice leaves exactly one occurrence
of it. -/
theorem c7_subscriber_at_most_once (s : List Nat) (op : HubOp) (c : Nat)
    (h : s.Nodup) :
    (applyOp s op).Nodup ∧ (register (register s c) c).count c = 1 := by
  have regNodup : ∀ (t : List Nat) (d : Nat), t.Nodup → (register t d).Nodup := by
    intro t d ht
    rw [register_def]
    by_cases hd : d ∈ t
    · rwa [if_pos hd]
    · rw [if_neg hd]
      exact List.nodup_cons.mpr ⟨hd, ht⟩
  constructor
  · cases op with
    | reg d => exact regNodup s d h
    | unreg d =>
      rw [applyOp, discard_def]
      exact h.filter _
    | publish text is_final now sendOk =>
      rw [applyOp, broadcast_survivors]
      exact h.filter _
  · have hc : c ∈ register s c := by
      rw [register_def]
      by_cases hcs : c ∈ s
      · rwa [if_pos hcs]
      · rw [if_neg hcs]
        exact List.mem_cons_self c s
    have htwice : register (register s c) c = register s c := by
      rw [register_def (register s c) c, if_pos hc]
    rw [htwice]
    exact List.count_eq_one_of_mem (regNodup s c h) hc

/-- Witness for C7: a publish with a failing subscriber, and double
registration of a fresh handle. -/
theorem c7_subscriber_at_most_once_witness :
    (applyOp [1, 2] (HubOp.publish "x" true ⟨2025, 10, 12, 9, 0, 0, 0⟩
        (fun k => k != 1))).Nodup ∧
    (register (register [1, 2] 3) 3).count 3 = 1 :=
  c7_subscriber_at_most_once [1, 2]
    (HubOp.publish "x" true ⟨2025, 10, 12, 9, 0, 0, 0⟩ (fun k => k != 1)) 3
    (by decide)

/-- C8: over an open session file whose flushed prefix is current (as
`create_session_file` leaves it), a sequence of `log_transcript` calls
appends exactly one block per call, in invocation order, each block
`[HH:MM:SS] [FINAL|PARTIAL]` then `Text: <text>` then a blank line with
the `FINAL` tag exactly when `is_final` is true, and the whole content is
flushed after the last write. -/
theorem c8_log_append_order (f : FileState) (calls : List (String × Bool × DateTime))
    (hopen : f.closed = false) (hfl : f.flushed = f.content) :
    run_records (some f) calls
      = Except.ok (some { content := f.content ++ blocksOf calls,
                          flushed := f.content ++ blocksOf calls,
                          closed := false }) := by
  induction calls generalizing f with
  | nil =>
    simp only [run_records, blocksOf, String.append_empty]
    cases f with
    | mk content flushed closed =>
      simp only at hopen hfl
      rw [hopen, hfl]
  | cons c rest ih =>
    have step : log_transcript (some f) c.1 c.2.1 c.2.2
        = Except.ok (some { content := f.content ++ logBlock c.1 c.2.1 c.2.2,
                            flushed := f.content ++ logBlock c.1 c.2.1 c.2.2,
                            closed := false }) := by
      simp [log_transcript, hopen]
    simp only [run_records, step]
    rw [ih _ rfl rfl]
    simp only [blocksOf, String.append_assoc]

/-- Witness for C8: a partial then a final record over a fresh header. -/
theorem c8_log_append_order_witness :
    run_records (some { content := "HDR", flushed := "HDR", closed := false })
        [("hello", false, ⟨2025, 10, 12, 9, 0, 1, 0⟩),
         ("hello world", true, ⟨2025, 10, 12, 9, 0, 2, 0⟩)]
      = Except.ok (some
          { content := "HDR" ++ blocksOf
              [("hello", false, ⟨2025, 10, 12, 9, 0, 1, 0⟩),
               ("hello world", true, ⟨2025, 10, 12, 9, 0, 2, 0⟩)],
            flushed := "HDR" ++ blocksOf
              [("hello", false, ⟨2025, 10, 12, 9, 0, 1, 0⟩),
               ("hello world", true, ⟨2025, 10, 12, 9, 0, 2, 0⟩)],
            closed := false }) :=
  c8_log_append_order { content := "HDR", flushed := "HDR", closed := false }
    _ rfl rfl

/-- C9: the recognition callback's whole effect is exactly one
`log_transcript` call followed by exactly one `broadcast_transcript`
call, both carrying the callback's own `text` and `is_final` (both
branches of `on_text` pass their literal flag, which equals the branch
condition); a raising log write short-circuits exactly as in the code.
Appending and delivering are not idempotent, so this equation also rules
out buffering, coalescing or duplication of partial events. -/
theorem c9_one_log_one_broadcast (st : SysState) (text : String)
    (is_final : Bool) (nowLog nowBc : DateTime) (sendOk : Nat → Bool) :
    on_text st text is_final nowLog nowBc sendOk
      = (log_transcript st.sessionFile text is_final nowLog).map
          (fun sf =>
            ({ sessionFile := sf,
               connected := (broadcast_transcript st.connected text is_final nowBc sendOk).2 },
             (broadcast_transcript st.connected text is_final nowBc sendOk).1)) := by
  cases is_final with
  | false =>
    simp only [on_text, if_pos]
    cases hl : log_transcript st.sessionFile text false nowLog with
    | error e => simp [Except.map, hl]
    | ok sf => simp [Except.map, hl]
  | true =>
    simp only [on_text]
    rw [if_neg (by exact fun k => Bool.noConfusion k)]
    cases hl : log_transcript st.sessionFile text true nowLog with
    | error e => simp [Except.map, hl]
    | ok sf => simp [Except.map, hl]

/-- C5 evidence: `on_text` hands the broadcast to `asyncio.run`, which
runs the coroutine to completion on a fresh loop in the callback thread
before returning. Consequently the delivery outcome — here the
failure-path discard of subscriber 1, which can only happen after that
subscriber's send has been attempted — is already part of `on_text`'s
own return value: delivery completion is sequenced before `on_text`
returns, so the hand-off is not fire-and-forget. -/
theorem c5_on_text_blocks_until_delivery_completes :
    on_text { sessionFile := none, connected := [1, 2] } "hello" true
        ⟨2025, 10, 12, 9, 0, 0, 0⟩ ⟨2025, 10, 12, 9, 0, 0, 500000⟩
        (fun k => k != 1)
      = Except.ok ({ sessionFile := none, connected := [2] },
          [(2, broadcastMessage "hello" true ⟨2025, 10, 12, 9, 0, 0, 500000⟩)]) := by
  rfl
